import Mathlib

/-!
Verification development for the dewiki greetbot (greetbot.py).

The repository implements a bot that greets newly registered users and
watches a live recent-changes feed to notify the greeter on the greeted
user's first edits.  Below, the Redis-backed state store, the live
correlator step (`GreetedUserWatchBot.treat`), the batch greeting logic
(`GreetController.greet`/`greetAll`/`getUsersToGreet`), the greeter roster
parser (`GreetController.reloadGreeters`) and the control-group bucketing
function (`GreetController.isInControlGroup`) are embedded as pure Lean
functions.  External collaborators (the wiki API, the regex/signature
parsing library, clocks and randomness) are passed in as explicit
function parameters; Redis commands are modelled by their documented
semantics on an explicit store state.
-/

/-- Record stored under the greetedUser key, mirroring the `GreetedUserInfo`
TypedDict of greetbot.py: fields `greeter`, `normalEditSeen` (the strings
"0"/"1", as stored by Redis), and `time` (epoch seconds, stored as an
integer). -/
structure GreetedUserInfo where
  greeter : String
  normalEditSeen : String
  time : Nat
deriving DecidableEq, Repr

/-- The Redis store contents relevant to the bot, under a fixed secret
prefix: per-user greeted hashes, the greetedUsers index set, per-user
control-group hashes (only the `time` field), and the controlGroup index
set.  Key expiry (TTL) is not modelled; an expired or deleted key is
represented by `none`/`false`. -/
structure RedisState where
  greeted : String → Option GreetedUserInfo
  greetedIndex : String → Bool
  control : String → Option Nat
  controlIndex : String → Bool

/-- RedisDb.addGreetedUser: HSET of all three fields plus SADD to the
greetedUsers index (the pipeline in lines 124-132). -/
def addGreetedUser (now : Nat) (greeter user : String) (st : RedisState) : RedisState :=
  { st with
    greeted := fun k => if k = user then some ⟨greeter, "0", now⟩ else st.greeted k,
    greetedIndex := fun k => if k = user then true else st.greetedIndex k }

/-- RedisDb.addControlGroupUser: guarded by `if not self.redis.exists(key)`,
so the hash and index write happen only when no record exists yet. -/
def addControlGroupUser (now : Nat) (user : String) (st : RedisState) : RedisState :=
  if (st.control user).isSome then st
  else
    { st with
      control := fun k => if k = user then some now else st.control k,
      controlIndex := fun k => if k = user then true else st.controlIndex k }

/-- RedisDb.getGreetedUserInfo: HGETALL; an absent (or expired) key yields
the empty dict, i.e. `none`. -/
def getGreetedUserInfo (user : String) (st : RedisState) : Option GreetedUserInfo :=
  st.greeted user

/-- RedisDb.setGreetedUserInfo: `redis.hmset(key, newUserInfo)`.  Redis
HMSET sets the given fields on the hash and creates the key when it does
not exist; since the caller always passes the full three-field dict, this
amounts to overwriting the record for that key (no TTL is set). -/
def setGreetedUserInfo (user : String) (newUserInfo : GreetedUserInfo) (st : RedisState) : RedisState :=
  { st with greeted := fun k => if k = user then some newUserInfo else st.greeted k }

/-- RedisDb.removeGreetedUser: DEL of the greetedUser key (the index set is
untouched). -/
def removeGreetedUser (user : String) (st : RedisState) : RedisState :=
  { st with greeted := fun k => if k = user then none else st.greeted k }

/-- A recent-changes event as consumed by GreetedUserWatchBot.treat: the
fields of `page._rcinfo` that the method reads (`type`, `user`, `title`,
`timestamp`, `revision.new`) together with the page namespace. -/
structure ChangeEvent where
  type : String
  user : String
  title : String
  ns : Int
  timestamp : Nat
  newRevision : Nat
deriving DecidableEq, Repr

/-- One call to GreetedUserWatchBot.notifyGreeter, identified by its four
arguments.  (notifyGreeter always appends to the per-greeter project log
page and additionally posts to the greeter's talk page only when
`ownTalkPageEdit` holds and the greeter opted in; those wiki writes are
external side effects of the single emitted notification.) -/
structure Notification where
  greeter : String
  username : String
  newRevision : Nat
  ownTalkPageEdit : Bool
deriving DecidableEq, Repr

/-- Characters after the first ':' of a character list; `none` when no
colon occurs (where Python `str.index` would raise ValueError). -/
def afterColonChars : List Char → Option (List Char)
  | [] => none
  | c :: rest => if c = ':' then some rest else afterColonChars rest

/-- The Python slice `title[title.index(":") + 1 :]`: the part of the
title after the first colon, `none` when the title has no colon (in which
case the Python code raises). -/
def afterFirstColon (s : String) : Option String :=
  (afterColonChars s.data).map String.mk

/-- The own-talk-page test of treat, line 512:
`page.namespace() == 3 and title[title.index(":") + 1 :] == username`.
Python's `and` short-circuits, so the colon slice (which can raise, giving
`none`) is only evaluated in namespace 3. -/
def ownTalkPageCheck (ns : Int) (title username : String) : Option Bool :=
  if ns = 3 then (afterFirstColon title).map (fun rest => decide (rest = username))
  else some false

/-- GreetedUserWatchBot.treat (lines 498-520) as a function from the event
and the store state to the successor state and the list of notifyGreeter
calls it makes; `none` models an uncaught exception (only possible from
the colon slice).  Logging (`pywikibot.warn`) is not modelled. -/
def treat (c : ChangeEvent) (st : RedisState) : Option (RedisState × List Notification) :=
  if ¬ (c.type = "edit" ∨ c.type = "new") then some (st, [])
  else
    match getGreetedUserInfo c.user st with
    | none => some (st, [])
    | some greetedUserInfo =>
      if c.timestamp < greetedUserInfo.time then
        -- event before greeting: warn and return
        some (st, [])
      else
        match ownTalkPageCheck c.ns c.title c.user with
        | none => none
        | some true =>
          -- user edited his own talk page for the first time after being greeted
          some (removeGreetedUser c.user st,
            [⟨greetedUserInfo.greeter, c.user, c.newRevision, true⟩])
        | some false =>
          if greetedUserInfo.normalEditSeen = "0" then
            -- user edited somewhere else for the first time after being greeted
            let newInfo := { greetedUserInfo with normalEditSeen := "1" }
            some (setGreetedUserInfo c.user newInfo st,
              [⟨greetedUserInfo.greeter, c.user, c.newRevision, false⟩])
          else
            some (st, [])

-- Sample store contents used by concrete witnesses below.

/-- A greeted-user record for Bob, greeted by Alice at epoch second 100,
with no edit seen yet. -/
def infoSample : GreetedUserInfo := ⟨"Alice", "0", 100⟩

/-- A store holding exactly the record `infoSample` for user "Bob". -/
def stSample : RedisState :=
  { greeted := fun k => if k = "Bob" then some infoSample else none,
    greetedIndex := fun k => k == "Bob",
    control := fun _ => none,
    controlIndex := fun _ => false }

/-- The empty store. -/
def stEmpty : RedisState :=
  { greeted := fun _ => none,
    greetedIndex := fun _ => false,
    control := fun _ => none,
    controlIndex := fun _ => false }

example : afterFirstColon "Benutzer Diskussion:Bob" = some "Bob" := by rfl

example : ownTalkPageCheck 3 "Benutzer Diskussion:Bob" "Bob" = some true := by rfl

example : ownTalkPageCheck 3 "Benutzer Diskussion:Bob/Archiv" "Bob" = some false := by rfl

example : ownTalkPageCheck 0 "Testartikel" "Bob" = some false := by rfl

example :
    treat ⟨"edit", "Bob", "Benutzer Diskussion:Bob", 3, 150, 11⟩ stSample =
      some (removeGreetedUser "Bob" stSample, [⟨"Alice", "Bob", 11, true⟩]) := by
  rfl

-- Branch characterisations of `treat`, shared by the claim theorems.

/-- Events whose acting user has no stored record are ignored (line 505:
the empty HGETALL dict is falsy). -/
lemma treat_no_record (c : ChangeEvent) (st : RedisState)
    (hg : st.greeted c.user = none) : treat c st = some (st, []) := by
  unfold treat getGreetedUserInfo
  rw [hg]
  split <;> rfl

/-- Stale events (timestamp before the record's creation time) leave the
state unchanged and emit nothing (lines 508-511). -/
lemma treat_stale (c : ChangeEvent) (st : RedisState) (info : GreetedUserInfo)
    (ht : c.type = "edit" ∨ c.type = "new")
    (hg : st.greeted c.user = some info)
    (hts : c.timestamp < info.time) : treat c st = some (st, []) := by
  unfold treat getGreetedUserInfo
  rw [if_neg (not_not_intro ht), hg]
  dsimp only
  rw [if_pos hts]

/-- An own-talk-page edit after greeting deletes the record and emits one
own-talk-page notification to the recorded greeter (lines 512-515). -/
lemma treat_own_talk (c : ChangeEvent) (st : RedisState) (info : GreetedUserInfo)
    (ht : c.type = "edit" ∨ c.type = "new")
    (hg : st.greeted c.user = some info)
    (hts : ¬ c.timestamp < info.time)
    (hot : ownTalkPageCheck c.ns c.title c.user = some true) :
    treat c st = some (removeGreetedUser c.user st,
      [⟨info.greeter, c.user, c.newRevision, true⟩]) := by
  unfold treat getGreetedUserInfo
  rw [if_neg (not_not_intro ht), hg]
  dsimp only
  rw [if_neg hts, hot]

/-- A non-own-talk-page edit while `normalEditSeen` is "0" flips the flag
via setGreetedUserInfo and emits one first-edit-elsewhere notification
(lines 516-520). -/
lemma treat_elsewhere_first (c : ChangeEvent) (st : RedisState) (info : GreetedUserInfo)
    (ht : c.type = "edit" ∨ c.type = "new")
    (hg : st.greeted c.user = some info)
    (hts : ¬ c.timestamp < info.time)
    (hot : ownTalkPageCheck c.ns c.title c.user = some false)
    (hn : info.normalEditSeen = "0") :
    treat c st = some (setGreetedUserInfo c.user { info with normalEditSeen := "1" } st,
      [⟨info.greeter, c.user, c.newRevision, false⟩]) := by
  unfold treat getGreetedUserInfo
  rw [if_neg (not_not_intro ht), hg]
  dsimp only
  rw [if_neg hts, hot]
  dsimp only
  rw [if_pos hn]

/-- A non-own-talk-page edit while `normalEditSeen` is no longer "0" takes
the final no-action branch. -/
lemma treat_elsewhere_seen (c : ChangeEvent) (st : RedisState) (info : GreetedUserInfo)
    (ht : c.type = "edit" ∨ c.type = "new")
    (hg : st.greeted c.user = some info)
    (hts : ¬ c.timestamp < info.time)
    (hot : ownTalkPageCheck c.ns c.title c.user = some false)
    (hn : info.normalEditSeen ≠ "0") : treat c st = some (st, []) := by
  unfold treat getGreetedUserInfo
  rw [if_neg (not_not_intro ht), hg]
  dsimp only
  rw [if_neg hts, hot]
  dsimp only
  rw [if_neg hn]

/-- removeGreetedUser deletes exactly the key of the given user. -/
lemma removeGreetedUser_greeted_self (user : String) (st : RedisState) :
    (removeGreetedUser user st).greeted user = none := by
  simp [removeGreetedUser]

/-- setGreetedUserInfo stores exactly the given record under the user's key. -/
lemma setGreetedUserInfo_greeted_self (user : String) (info : GreetedUserInfo)
    (st : RedisState) : (setGreetedUserInfo user info st).greeted user = some info := by
  simp [setGreetedUserInfo]

-- Claim theorems about the Live Correlator (treat).

/-- C1: for a greeted user with a stored record, feeding two own-talk-page
edit events for that user through treat emits exactly one own-talk-page
notification to the recorded greeter; the record is deleted by the first
event, so the second event finds no record and is ignored. -/
theorem C1_two_own_talk_events_one_notification
    (e1 e2 : ChangeEvent) (st : RedisState) (info : GreetedUserInfo) (u : String)
    (hu1 : e1.user = u) (hu2 : e2.user = u)
    (ht1 : e1.type = "edit" ∨ e1.type = "new")
    (ht2 : e2.type = "edit" ∨ e2.type = "new")
    (hg : st.greeted u = some info)
    (hts1 : ¬ e1.timestamp < info.time)
    (hot1 : ownTalkPageCheck e1.ns e1.title u = some true)
    (hot2 : ownTalkPageCheck e2.ns e2.title u = some true) :
    treat e1 st = some (removeGreetedUser u st,
        [⟨info.greeter, u, e1.newRevision, true⟩]) ∧
    (removeGreetedUser u st).greeted u = none ∧
    treat e2 (removeGreetedUser u st) = some (removeGreetedUser u st, []) := by
  subst hu1
  refine ⟨treat_own_talk e1 st info ht1 hg hts1 hot1,
    removeGreetedUser_greeted_self e1.user st, ?_⟩
  exact treat_no_record e2 (removeGreetedUser e1.user st) (by simp [removeGreetedUser, hu2])

/-- First own-talk-page edit event of Bob (after the greeting at time 100). -/
def eOwn1 : ChangeEvent := ⟨"edit", "Bob", "Benutzer Diskussion:Bob", 3, 150, 11⟩

/-- Second own-talk-page edit event of Bob. -/
def eOwn2 : ChangeEvent := ⟨"edit", "Bob", "Benutzer Diskussion:Bob", 3, 160, 12⟩

/-- Witness for C1 at the concrete store `stSample` and events
`eOwn1`, `eOwn2`. -/
theorem C1_two_own_talk_events_one_notification_witness :
    treat eOwn1 stSample = some (removeGreetedUser "Bob" stSample,
        [⟨"Alice", "Bob", 11, true⟩]) ∧
    (removeGreetedUser "Bob" stSample).greeted "Bob" = none ∧
    treat eOwn2 (removeGreetedUser "Bob" stSample) =
      some (removeGreetedUser "Bob" stSample, []) :=
  C1_two_own_talk_events_one_notification eOwn1 eOwn2 stSample infoSample "Bob"
    rfl rfl (Or.inl rfl) (Or.inl rfl) rfl (by decide) rfl rfl

/-- C2: for a greeted user whose record has `normalEditSeen = "0"`, feeding
two non-own-talk-page edit events through treat emits exactly one
first-edit-elsewhere notification; the first event sets `normalEditSeen`
to "1" and the second event takes the final no-action branch. -/
theorem C2_two_elsewhere_events_one_notification
    (e1 e2 : ChangeEvent) (st : RedisState) (info : GreetedUserInfo) (u : String)
    (hu1 : e1.user = u) (hu2 : e2.user = u)
    (ht1 : e1.type = "edit" ∨ e1.type = "new")
    (ht2 : e2.type = "edit" ∨ e2.type = "new")
    (hg : st.greeted u = some info)
    (hn : info.normalEditSeen = "0")
    (hts1 : ¬ e1.timestamp < info.time)
    (hts2 : ¬ e2.timestamp < info.time)
    (hot1 : ownTalkPageCheck e1.ns e1.title u = some false)
    (hot2 : ownTalkPageCheck e2.ns e2.title u = some false) :
    treat e1 st = some (setGreetedUserInfo u { info with normalEditSeen := "1" } st,
        [⟨info.greeter, u, e1.newRevision, false⟩]) ∧
    (setGreetedUserInfo u { info with normalEditSeen := "1" } st).greeted u =
      some { info with normalEditSeen := "1" } ∧
    treat e2 (setGreetedUserInfo u { info with normalEditSeen := "1" } st) =
      some (setGreetedUserInfo u { info with normalEditSeen := "1" } st, []) := by
  subst hu1
  refine ⟨treat_elsewhere_first e1 st info ht1 hg hts1 hot1 hn,
    setGreetedUserInfo_greeted_self e1.user _ st, ?_⟩
  refine treat_elsewhere_seen e2 _ { info with normalEditSeen := "1" } ht2 ?_ hts2
    (by rw [hu2]; exact hot2) (by simp)
  rw [hu2]
  exact setGreetedUserInfo_greeted_self e1.user _ st

/-- First non-own-talk-page edit event of Bob (an article edit). -/
def eElse1 : ChangeEvent := ⟨"edit", "Bob", "Testartikel", 0, 150, 11⟩

/-- Second non-own-talk-page edit event of Bob (his user page, namespace 2). -/
def eElse2 : ChangeEvent := ⟨"edit", "Bob", "Benutzer:Bob", 2, 160, 12⟩

/-- Witness for C2 at the concrete store `stSample` and events
`eElse1`, `eElse2`. -/
theorem C2_two_elsewhere_events_one_notification_witness :
    treat eElse1 stSample =
      some (setGreetedUserInfo "Bob" ⟨"Alice", "1", 100⟩ stSample,
        [⟨"Alice", "Bob", 11, false⟩]) ∧
    (setGreetedUserInfo "Bob" ⟨"Alice", "1", 100⟩ stSample).greeted "Bob" =
      some ⟨"Alice", "1", 100⟩ ∧
    treat eElse2 (setGreetedUserInfo "Bob" ⟨"Alice", "1", 100⟩ stSample) =
      some (setGreetedUserInfo "Bob" ⟨"Alice", "1", 100⟩ stSample, []) :=
  C2_two_elsewhere_events_one_notification eElse1 eElse2 stSample infoSample "Bob"
    rfl rfl (Or.inl rfl) (Or.inl rfl) rfl rfl (by decide) (by decide) rfl rfl

/-- C3: an edit event about a user with a stored record whose timestamp is
strictly earlier than the record's creation time makes no state change and
emits no notification (the code only logs a warning and returns). -/
theorem C3_stale_event_ignored
    (e : ChangeEvent) (st : RedisState) (info : GreetedUserInfo)
    (ht : e.type = "edit" ∨ e.type = "new")
    (hg : st.greeted e.user = some info)
    (hts : e.timestamp < info.time) :
    treat e st = some (st, []) :=
  treat_stale e st info ht hg hts

/-- An edit event of Bob from before the greeting (timestamp 50 < 100). -/
def eStale : ChangeEvent := ⟨"edit", "Bob", "Benutzer Diskussion:Bob", 3, 50, 9⟩

/-- Witness for C3 at the concrete store `stSample` and event `eStale`. -/
theorem C3_stale_event_ignored_witness :
    treat eStale stSample = some (stSample, []) :=
  C3_stale_event_ignored eStale stSample infoSample (Or.inl rfl) rfl (by decide)

/-- Scanning for the first colon in a title that starts with the literal
namespace prefix "Benutzer Diskussion:" stops at that prefix's colon. -/
lemma afterColonChars_talkNsHeader (tail : List Char) :
    afterColonChars ("Benutzer Diskussion:".data ++ tail) = some tail := by
  rfl

/-- A namespace-3 title of the shape
`"Benutzer Diskussion:" ++ u ++ "/" ++ rest` (a subpage of u's talk page)
fails the own-talk-page test: the part after the first colon is
`u ++ "/" ++ rest`, which is longer than `u`. -/
lemma ownTalkPageCheck_subpage (u rest : String) :
    ownTalkPageCheck 3 ("Benutzer Diskussion:" ++ u ++ "/" ++ rest) u = some false := by
  have hdata : ("Benutzer Diskussion:" ++ u ++ "/" ++ rest).data
      = "Benutzer Diskussion:".data ++ (u.data ++ '/' :: rest.data) := by
    simp [String.data_append]
  have h1 : afterFirstColon ("Benutzer Diskussion:" ++ u ++ "/" ++ rest)
      = some (String.mk (u.data ++ '/' :: rest.data)) := by
    unfold afterFirstColon
    rw [hdata, afterColonChars_talkNsHeader]
    rfl
  have hne : String.mk (u.data ++ '/' :: rest.data) ≠ u := by
    intro h
    have hlen := congrArg (fun s => s.data.length) h
    simp [List.length_append] at hlen
  unfold ownTalkPageCheck
  rw [if_pos rfl, h1]
  simp [hne]

/-- C10: only a namespace-3 title whose part after the first colon equals
the acting username counts as an own-talk-page edit; an edit to a subpage
of the user's own talk page is classified as a first-edit-elsewhere event:
it flips `normalEditSeen` instead of deleting the record, and the record
is still present afterwards. -/
theorem C10_own_talk_subpage_is_elsewhere
    (e : ChangeEvent) (st : RedisState) (info : GreetedUserInfo) (u rest : String)
    (hu : e.user = u)
    (ht : e.type = "edit" ∨ e.type = "new")
    (hns : e.ns = 3)
    (htitle : e.title = "Benutzer Diskussion:" ++ u ++ "/" ++ rest)
    (hg : st.greeted u = some info)
    (hts : ¬ e.timestamp < info.time)
    (hn : info.normalEditSeen = "0") :
    ownTalkPageCheck e.ns e.title u = some false ∧
    treat e st = some (setGreetedUserInfo u { info with normalEditSeen := "1" } st,
        [⟨info.greeter, u, e.newRevision, false⟩]) ∧
    (setGreetedUserInfo u { info with normalEditSeen := "1" } st).greeted u =
      some { info with normalEditSeen := "1" } := by
  subst hu
  have hot : ownTalkPageCheck e.ns e.title e.user = some false := by
    rw [hns, htitle]
    exact ownTalkPageCheck_subpage e.user rest
  exact ⟨hot, treat_elsewhere_first e st info ht hg hts hot hn,
    setGreetedUserInfo_greeted_self e.user _ st⟩

/-- An edit by Bob to a subpage of his own talk page. -/
def eSubpage : ChangeEvent := ⟨"edit", "Bob", "Benutzer Diskussion:Bob/Archiv", 3, 150, 11⟩

/-- Witness for C10 at the concrete store `stSample` and event `eSubpage`. -/
theorem C10_own_talk_subpage_is_elsewhere_witness :
    ownTalkPageCheck eSubpage.ns eSubpage.title "Bob" = some false ∧
    treat eSubpage stSample =
      some (setGreetedUserInfo "Bob" ⟨"Alice", "1", 100⟩ stSample,
        [⟨"Alice", "Bob", 11, false⟩]) ∧
    (setGreetedUserInfo "Bob" ⟨"Alice", "1", 100⟩ stSample).greeted "Bob" =
      some ⟨"Alice", "1", 100⟩ :=
  C10_own_talk_subpage_is_elsewhere eSubpage stSample infoSample "Bob" "Archiv"
    rfl (Or.inl rfl) rfl rfl rfl (by decide) rfl

-- Claims about the state-store operations.

/-- C4 counterexample: on the empty store, calling setGreetedUserInfo for
"Bob" (whose record is absent, as after expiry or deletion) is not a
no-op: Redis HMSET creates the missing key, so a record for "Bob" exists
afterwards and the store state for Bob's key has changed. -/
theorem C4_setGreetedUserInfo_counterexample :
    stEmpty.greeted "Bob" = none ∧
    (setGreetedUserInfo "Bob" ⟨"Alice", "1", 100⟩ stEmpty).greeted "Bob" =
      some ⟨"Alice", "1", 100⟩ ∧
    (setGreetedUserInfo "Bob" ⟨"Alice", "1", 100⟩ stEmpty).greeted "Bob" ≠
      stEmpty.greeted "Bob" := by
  refine ⟨rfl, rfl, ?_⟩
  intro h
  simp [setGreetedUserInfo, stEmpty] at h

/-- C4 (amended): calling setGreetedUserInfo for a user always stores the
given record under that user's key — creating it when it was absent
(expired/deleted), since HMSET creates missing keys — and leaves every
other user's key unchanged. -/
theorem C4_setGreetedUserInfo_overwrites
    (user : String) (info : GreetedUserInfo) (st : RedisState) :
    (setGreetedUserInfo user info st).greeted user = some info ∧
    (∀ k, k ≠ user → (setGreetedUserInfo user info st).greeted k = st.greeted k) := by
  refine ⟨setGreetedUserInfo_greeted_self user info st, fun k hk => ?_⟩
  simp [setGreetedUserInfo, hk]

/-- Witness for the amended C4 on the empty store: Bob's key now holds the
record, Carol's key is untouched. -/
theorem C4_setGreetedUserInfo_overwrites_witness :
    (setGreetedUserInfo "Bob" ⟨"Alice", "1", 100⟩ stEmpty).greeted "Bob" =
      some ⟨"Alice", "1", 100⟩ ∧
    (setGreetedUserInfo "Bob" ⟨"Alice", "1", 100⟩ stEmpty).greeted "Carol" =
      stEmpty.greeted "Carol" :=
  ⟨(C4_setGreetedUserInfo_overwrites "Bob" ⟨"Alice", "1", 100⟩ stEmpty).1,
    (C4_setGreetedUserInfo_overwrites "Bob" ⟨"Alice", "1", 100⟩ stEmpty).2 "Carol" (by decide)⟩

/-- C5: addControlGroupUser is idempotent: when a control-group record for
the user already exists the call is a complete no-op (the stored creation
time is untouched), and calling it twice — even with different clock
values — leaves the store exactly as after the first call. -/
theorem C5_addControlGroupUser_idempotent
    (now now2 : Nat) (user : String) (st : RedisState) :
    ((st.control user).isSome = true → addControlGroupUser now user st = st) ∧
    addControlGroupUser now2 user (addControlGroupUser now user st) =
      addControlGroupUser now user st := by
  constructor
  · intro h
    simp [addControlGroupUser, h]
  · rcases h : st.control user with _ | v
    · simp only [addControlGroupUser, h, Option.isSome_none, Bool.false_eq_true, if_false]
      simp
    · simp [addControlGroupUser, h]

/-- A store holding a control-group record for "Carol" created at time 5. -/
def stControl : RedisState :=
  { greeted := fun _ => none,
    greetedIndex := fun _ => false,
    control := fun k => if k = "Carol" then some 5 else none,
    controlIndex := fun k => k == "Carol" }

/-- Witness for C5: on `stControl`, re-adding "Carol" is a no-op, and the
double call on the empty store equals the single call. -/
theorem C5_addControlGroupUser_idempotent_witness :
    addControlGroupUser 7 "Carol" stControl = stControl ∧
    addControlGroupUser 8 "Carol" (addControlGroupUser 7 "Carol" stEmpty) =
      addControlGroupUser 7 "Carol" stEmpty :=
  ⟨(C5_addControlGroupUser_idempotent 7 8 "Carol" stControl).1 (by decide),
    (C5_addControlGroupUser_idempotent 7 8 "Carol" stEmpty).2⟩

-- Bucketing: GreetController.isInControlGroup (lines 359-361) computes
-- hashlib.sha224((secret + username).encode("utf-8")) and tests
-- digest[0] % 128 < 64.  SHA-224 (FIPS 180-4) is implemented below on
-- byte lists, with 32-bit words represented as naturals reduced mod 2^32.

/-- Reduction of a natural to a 32-bit word. -/
def wmask (x : Nat) : Nat := x % 4294967296

/-- Right rotation of a 32-bit word by n bits. -/
def rotr (n x : Nat) : Nat := wmask ((x >>> n) ||| (x <<< (32 - n)))

/-- The 64 SHA-256 round constants. -/
def sha2K : Array Nat := #[
  1116352408, 1899447441, 3049323471, 3921009573, 961987163,
  1508970993, 2453635748, 2870763221, 3624381080, 310598401,
  607225278, 1426881987, 1925078388, 2162078206, 2614888103,
  3248222580, 3835390401, 4022224774, 264347078, 604807628,
  770255983, 1249150122, 1555081692, 1996064986, 2554220882,
  2821834349, 2952996808, 3210313671, 3336571891, 3584528711,
  113926993, 338241895, 666307205, 773529912, 1294757372,
  1396182291, 1695183700, 1986661051, 2177026350, 2456956037,
  2730485921, 2820302411, 3259730800, 3345764771, 3516065817,
  3600352804, 4094571909, 275423344, 430227734, 506948616,
  659060556, 883997877, 958139571, 1322822218, 1537002063,
  1747873779, 1955562222, 2024104815, 2227730452, 2361852424,
  2428436474, 2756734187, 3204031479, 3329325298]

/-- The SHA-224 initial hash value. -/
def sha224H0 : Array Nat := #[
  3238371032, 914150663, 812702999, 4144912697, 4290775857,
  1750603025, 1694076839, 3204075428]

/-- One SHA-2 compression round applied to a 64-byte block. -/
def sha2Compress (H : Array Nat) (block : List Nat) : Array Nat := Id.run do
  let bytes := block.toArray
  let mut w : Array Nat := #[]
  for i in List.range 16 do
    w := w.push (bytes.getD (4 * i) 0 * 16777216 + bytes.getD (4 * i + 1) 0 * 65536 +
      bytes.getD (4 * i + 2) 0 * 256 + bytes.getD (4 * i + 3) 0)
  for j in List.range 48 do
    let i := j + 16
    let x15 := w.getD (i - 15) 0
    let x2 := w.getD (i - 2) 0
    let s0 := rotr 7 x15 ^^^ rotr 18 x15 ^^^ (x15 >>> 3)
    let s1 := rotr 17 x2 ^^^ rotr 19 x2 ^^^ (x2 >>> 10)
    w := w.push (wmask (w.getD (i - 16) 0 + s0 + w.getD (i - 7) 0 + s1))
  let mut a := H.getD 0 0
  let mut b := H.getD 1 0
  let mut c := H.getD 2 0
  let mut d := H.getD 3 0
  let mut e := H.getD 4 0
  let mut f := H.getD 5 0
  let mut g := H.getD 6 0
  let mut h := H.getD 7 0
  for i in List.range 64 do
    let S1 := rotr 6 e ^^^ rotr 11 e ^^^ rotr 25 e
    let ch := (e &&& f) ^^^ ((e ^^^ 4294967295) &&& g)
    let temp1 := wmask (h + S1 + ch + sha2K.getD i 0 + w.getD i 0)
    let S0 := rotr 2 a ^^^ rotr 13 a ^^^ rotr 22 a
    let maj := (a &&& b) ^^^ (a &&& c) ^^^ (b &&& c)
    let temp2 := wmask (S0 + maj)
    h := g
    g := f
    f := e
    e := wmask (d + temp1)
    d := c
    c := b
    b := a
    a := wmask (temp1 + temp2)
  return #[wmask (H.getD 0 0 + a), wmask (H.getD 1 0 + b), wmask (H.getD 2 0 + c),
    wmask (H.getD 3 0 + d), wmask (H.getD 4 0 + e), wmask (H.getD 5 0 + f),
    wmask (H.getD 6 0 + g), wmask (H.getD 7 0 + h)]

/-- Folding the compression function over all 64-byte blocks of a message. -/
def sha2Blocks (H : Array Nat) (msg : List Nat) : Array Nat :=
  match msg with
  | [] => H
  | b :: rest => sha2Blocks (sha2Compress H (List.take 64 (b :: rest))) (List.drop 64 (b :: rest))
termination_by msg.length
decreasing_by
  simp
  omega

/-- SHA-2 message padding: a 0x80 byte, zero bytes up to 56 mod 64, then
the bit length as a 64-bit big-endian integer. -/
def sha2Pad (msg : List Nat) : List Nat :=
  let len := msg.length
  let bitLen := 8 * len
  let zeros := (119 - len % 64) % 64
  msg ++ 0x80 :: List.replicate zeros 0 ++
    [(bitLen >>> 56) % 256, (bitLen >>> 48) % 256, (bitLen >>> 40) % 256, (bitLen >>> 32) % 256,
     (bitLen >>> 24) % 256, (bitLen >>> 16) % 256, (bitLen >>> 8) % 256, bitLen % 256]

/-- SHA-224 digest (28 bytes) of a byte list. -/
def sha224 (msg : List Nat) : List Nat :=
  let final := sha2Blocks sha224H0 (sha2Pad msg)
  (final.toList.take 7).foldr
    (fun wd acc => (wd >>> 24) % 256 :: (wd >>> 16) % 256 :: (wd >>> 8) % 256 :: wd % 256 :: acc) []

/-- UTF-8 encoding of a single character (Python str.encode("utf-8")). -/
def utf8EncodeChar (c : Char) : List Nat :=
  let n := c.toNat
  if n < 0x80 then [n]
  else if n < 0x800 then [0xC0 ||| (n >>> 6), 0x80 ||| (n &&& 0x3F)]
  else if n < 0x10000 then
    [0xE0 ||| (n >>> 12), 0x80 ||| ((n >>> 6) &&& 0x3F), 0x80 ||| (n &&& 0x3F)]
  else
    [0xF0 ||| (n >>> 18), 0x80 ||| ((n >>> 12) &&& 0x3F), 0x80 ||| ((n >>> 6) &&& 0x3F),
     0x80 ||| (n &&& 0x3F)]

/-- UTF-8 encoding of a string as a byte list. -/
def utf8Encode (s : String) : List Nat :=
  s.data.foldr (fun c acc => utf8EncodeChar c ++ acc) []

/-- GreetController.isInControlGroup (lines 359-361): the first byte of
sha224(secret + username), reduced mod 128, decides the bucket. -/
def isInControlGroup (secret username : String) : Bool :=
  decide ((sha224 (utf8Encode (secret ++ username))).headD 0 % 128 < 64)


/-- C6: the bucketing decision is a pure, deterministic function of the
salt and the username: it is computed solely from the SHA-224 digest of
the UTF-8 encoding of their concatenation, so two evaluations with equal
salts and equal usernames always return the same bucket. -/
theorem C6_isInControlGroup_deterministic
    (salt1 salt2 user1 user2 : String)
    (hs : salt1 = salt2) (hu : user1 = user2) :
    isInControlGroup salt1 user1 = isInControlGroup salt2 user2 := by
  rw [hs, hu]

/-- Witness for C6 at the concrete salt of the test configuration and a
concrete username. -/
theorem C6_isInControlGroup_deterministic_witness :
    isInControlGroup "12345abcdef" "TestUser" = isInControlGroup "12345abcdef" "TestUser" :=
  C6_isInControlGroup_deterministic "12345abcdef" "12345abcdef" "TestUser" "TestUser" rfl rfl

-- Batch greeting: GreetController.greet (lines 318-333) and
-- GreetController.greetAll (lines 335-357).

/-- Outcome of one GreetController.greet call: success, the
TalkPageExistsException raised when the user's talk page exists at write
time, or any other exception from the external wiki write. -/
inductive GreetOutcome where
  | success
  | talkPageExistsError
  | otherError
deriving DecidableEq, Repr

/-- GreetController.greet: re-checks the user's talk page and raises
(outcome `talkPageExistsError`) before writing anything; otherwise the
welcome template is saved to the user's talk page (recorded in the list of
performed welcome writes as a (user, greeter) pair, `saveFails` modelling
an exception from the external save) and on success addGreetedUser runs.
The gender lookup used to build the template text is external and does not
affect the outcome shape. -/
def greet (talkPageExists saveFails : String → Bool) (now : Nat)
    (greeterName user : String) (st : RedisState) :
    GreetOutcome × RedisState × List (String × String) :=
  if talkPageExists user then (.talkPageExistsError, st, [])
  else if saveFails user then (.otherError, st, [])
  else (.success, addGreetedUser now greeterName user st, [(user, greeterName)])

/-- GreetController.greetAll: greets each user with a picked greeter
(`pick` standing for random.choice on the eligible list), catching
TalkPageExistsException and any other exception by skipping the user, and
returns the successfully greeted users, the final store state, and all
performed welcome writes.  The per-greeter log aggregation
(logGreetings) only performs external page writes and is not modelled. -/
def greetAll (talkPageExists saveFails : String → Bool) (now : Nat)
    (pick : String → String) :
    List String → RedisState → List String × RedisState × List (String × String)
  | [], st => ([], st, [])
  | user :: rest, st =>
    match greet talkPageExists saveFails now (pick user) user st with
    | (.success, st1, w) =>
      match greetAll talkPageExists saveFails now pick rest st1 with
      | (greetedUsers, st2, ws) => (user :: greetedUsers, st2, w ++ ws)
    | (_, st1, w) =>
      match greetAll talkPageExists saveFails now pick rest st1 with
      | (greetedUsers, st2, ws) => (greetedUsers, st2, w ++ ws)

/-- A user whose talk page exists at write time is skipped by greetAll
without any effect. -/
lemma greetAll_skips_existing (talkPageExists saveFails : String → Bool)
    (now : Nat) (pick : String → String) (user : String)
    (hex : talkPageExists user = true) :
    ∀ (pre post : List String) (st : RedisState),
      greetAll talkPageExists saveFails now pick (pre ++ user :: post) st =
        greetAll talkPageExists saveFails now pick (pre ++ post) st := by
  intro pre
  induction pre with
  | nil =>
    intro post st
    simp only [List.nil_append, greetAll, greet, hex, if_true]
  | cons v pre ih =>
    intro post st
    simp only [List.cons_append, greetAll]
    rcases hg : greet talkPageExists saveFails now (pick v) v st with ⟨out, st1, w⟩
    cases out <;>
      · simp only [List.append_eq]
        rw [ih post st1]

/-- A user whose talk page exists is never in greetAll's greeted list. -/
lemma greetAll_not_mem_existing (talkPageExists saveFails : String → Bool)
    (now : Nat) (pick : String → String) (user : String)
    (hex : talkPageExists user = true) :
    ∀ (users : List String) (st : RedisState),
      user ∉ (greetAll talkPageExists saveFails now pick users st).1 := by
  intro users
  induction users with
  | nil => intro st; simp [greetAll]
  | cons v rest ih =>
    intro st
    by_cases hv : v = user
    · subst hv
      simp only [greetAll, greet, hex, if_true]
      rcases h : greetAll talkPageExists saveFails now pick rest st with ⟨gs, st2, ws⟩
      have := ih st
      rw [h] at this
      simpa using this
    · simp only [greetAll]
      rcases hg : greet talkPageExists saveFails now (pick v) v st with ⟨out, st1, w⟩
      have := ih st1
      cases out <;>
        · rcases h : greetAll talkPageExists saveFails now pick rest st1 with ⟨gs, st2, ws⟩
          rw [h] at this
          simp_all [Ne.symm hv]

/-- C7: when a to-greet user's talk page already exists at write time,
greet aborts before the welcome write and before creating a
GreetedUserRecord (the store and the write list are untouched), greetAll
treats this as a skipped item — processing the surrounding users exactly
as if the skipped user were absent — and the skipped user never appears in
the returned list of greeted users. -/
theorem C7_talk_page_exists_skipped
    (talkPageExists saveFails : String → Bool) (now : Nat)
    (pick : String → String) (greeterName user : String)
    (hex : talkPageExists user = true) :
    (∀ st : RedisState,
      greet talkPageExists saveFails now greeterName user st =
        (.talkPageExistsError, st, [])) ∧
    (∀ (pre post : List String) (st : RedisState),
      greetAll talkPageExists saveFails now pick (pre ++ user :: post) st =
        greetAll talkPageExists saveFails now pick (pre ++ post) st) ∧
    (∀ (users : List String) (st : RedisState),
      user ∉ (greetAll talkPageExists saveFails now pick users st).1) :=
  ⟨fun st => by simp [greet, hex],
    greetAll_skips_existing talkPageExists saveFails now pick user hex,
    greetAll_not_mem_existing talkPageExists saveFails now pick user hex⟩

/-- Witness for C7: with only "Bob"'s talk page existing, greeting
["Carol", "Bob", "Dave"] behaves like greeting ["Carol", "Dave"] and Bob
is not among the greeted users. -/
theorem C7_talk_page_exists_skipped_witness :
    greet (fun u => u == "Bob") (fun _ => false) 100 "Alice" "Bob" stEmpty =
      (.talkPageExistsError, stEmpty, []) ∧
    greetAll (fun u => u == "Bob") (fun _ => false) 100 (fun _ => "Alice")
        (["Carol"] ++ "Bob" :: ["Dave"]) stEmpty =
      greetAll (fun u => u == "Bob") (fun _ => false) 100 (fun _ => "Alice")
        (["Carol"] ++ ["Dave"]) stEmpty ∧
    "Bob" ∉ (greetAll (fun u => u == "Bob") (fun _ => false) 100 (fun _ => "Alice")
        ["Carol", "Bob", "Dave"] stEmpty).1 :=
  ⟨(C7_talk_page_exists_skipped (fun u => u == "Bob") (fun _ => false) 100
      (fun _ => "Alice") "Alice" "Bob" (by decide)).1 stEmpty,
    (C7_talk_page_exists_skipped (fun u => u == "Bob") (fun _ => false) 100
      (fun _ => "Alice") "Alice" "Bob" (by decide)).2.1 ["Carol"] ["Dave"] stEmpty,
    (C7_talk_page_exists_skipped (fun u => u == "Bob") (fun _ => false) 100
      (fun _ => "Alice") "Alice" "Bob" (by decide)).2.2 ["Carol", "Bob", "Dave"] stEmpty⟩

-- Batch user selection: GreetController.getUsersToGreet (lines 252-285)
-- and the treatment/control partition of doGreetRun (lines 412-415).

/-- The inProduction module flag (line 30). -/
def inProduction : Bool := true

/-- Epoch seconds of 2019-12-02 00:00 Europe/Berlin: in December Berlin is
on CET (UTC+1), so this is 2019-12-01 23:00:00 UTC. -/
def windowStart : Nat := 1575241200

/-- Epoch seconds of 2020-01-27 00:00 Europe/Berlin: 2020-01-26 23:00:00
UTC (CET again, no DST in January). -/
def windowEnd : Nat := 1580079600

/-- A "newusers" log event as consumed by getUsersToGreet: the action, the
acting username, the event timestamp (epoch seconds), and whether reading
the username raises HiddenKeyError (name oversighted). -/
structure NewUserLogEvent where
  action : String
  user : String
  timestamp : Nat
  hiddenUser : Bool
deriving DecidableEq, Repr

/-- GreetController.getUsersToGreet: keeps only "create" log events (local
registrations), skips hidden usernames, blocked users, globally locked
users, users who already have a talk page, and — in production — users
registered outside the hardcoded eight-week window; the rest are the users
to greet.  The comparison of aware datetimes in line 277-279 is the
comparison of the underlying instants, hence of epoch seconds. -/
def getUsersToGreet (isBlocked isLocked talkPageExists : String → Bool) :
    List NewUserLogEvent → List String
  | [] => []
  | e :: rest =>
    let remaining := getUsersToGreet isBlocked isLocked talkPageExists rest
    if e.action = "create" then
      if e.hiddenUser then remaining
      else if isBlocked e.user then remaining
      else if isLocked e.user then remaining
      else if talkPageExists e.user then remaining
      else if inProduction = true ∧ ¬ (windowStart < e.timestamp ∧ e.timestamp < windowEnd) then
        remaining
      else e.user :: remaining
    else remaining

/-- The partition of doGreetRun line 412-415:
`(controlGroup if self.isInControlGroup(user) else usersToGreet).append(user)`;
the first component is the control group, the second the users to greet. -/
def splitUsers (secret : String) : List String → List String × List String
  | [] => ([], [])
  | u :: rest =>
    let r := splitUsers secret rest
    if isInControlGroup secret u then (u :: r.1, r.2) else (r.1, u :: r.2)

/-- Unfolding equation for splitUsers on a cons cell. -/
lemma splitUsers_cons (secret v : String) (rest : List String) :
    splitUsers secret (v :: rest) =
      if isInControlGroup secret v
      then (v :: (splitUsers secret rest).1, (splitUsers secret rest).2)
      else ((splitUsers secret rest).1, v :: (splitUsers secret rest).2) := by
  rfl

/-- Both components of splitUsers only contain input users. -/
lemma mem_splitUsers (secret u : String) :
    ∀ l : List String,
      (u ∈ (splitUsers secret l).1 → u ∈ l) ∧ (u ∈ (splitUsers secret l).2 → u ∈ l) := by
  intro l
  induction l with
  | nil => simp [splitUsers]
  | cons v rest ih =>
    by_cases hc : isInControlGroup secret v = true
    · rw [splitUsers_cons, if_pos hc]
      constructor
      · intro h
        rcases List.mem_cons.mp h with h1 | h1
        · exact h1 ▸ List.mem_cons_self v rest
        · exact List.mem_cons_of_mem v (ih.1 h1)
      · intro h
        exact List.mem_cons_of_mem v (ih.2 h)
    · rw [splitUsers_cons, if_neg hc]
      constructor
      · intro h
        exact List.mem_cons_of_mem v (ih.1 h)
      · intro h
        rcases List.mem_cons.mp h with h1 | h1
        · exact h1 ▸ List.mem_cons_self v rest
        · exact List.mem_cons_of_mem v (ih.2 h1)

/-- Every selected user comes from a "create" event inside the hardcoded
registration window and passes all the other exclusion checks. -/
lemma mem_getUsersToGreet (isBlocked isLocked talkPageExists : String → Bool) (u : String) :
    ∀ events : List NewUserLogEvent,
      u ∈ getUsersToGreet isBlocked isLocked talkPageExists events →
      ∃ ev ∈ events, ev.action = "create" ∧ ev.hiddenUser = false ∧ ev.user = u ∧
        isBlocked u = false ∧ isLocked u = false ∧ talkPageExists u = false ∧
        windowStart < ev.timestamp ∧ ev.timestamp < windowEnd := by
  intro events
  induction events with
  | nil => intro h; simp [getUsersToGreet] at h
  | cons e rest ih =>
    intro hu
    simp only [getUsersToGreet] at hu
    have lift : u ∈ getUsersToGreet isBlocked isLocked talkPageExists rest →
        ∃ ev ∈ e :: rest, ev.action = "create" ∧ ev.hiddenUser = false ∧ ev.user = u ∧
          isBlocked u = false ∧ isLocked u = false ∧ talkPageExists u = false ∧
          windowStart < ev.timestamp ∧ ev.timestamp < windowEnd := by
      intro h
      obtain ⟨ev, hev, hp⟩ := ih h
      exact ⟨ev, List.mem_cons_of_mem e hev, hp⟩
    by_cases ha : e.action = "create"
    · rw [if_pos ha] at hu
      by_cases hh : e.hiddenUser = true
      · rw [if_pos hh] at hu; exact lift hu
      · rw [if_neg hh] at hu
        by_cases hb : isBlocked e.user = true
        · rw [if_pos hb] at hu; exact lift hu
        · rw [if_neg hb] at hu
          by_cases hl : isLocked e.user = true
          · rw [if_pos hl] at hu; exact lift hu
          · rw [if_neg hl] at hu
            by_cases htp : talkPageExists e.user = true
            · rw [if_pos htp] at hu; exact lift hu
            · rw [if_neg htp] at hu
              by_cases hw : inProduction = true ∧
                  ¬ (windowStart < e.timestamp ∧ e.timestamp < windowEnd)
              · rw [if_pos hw] at hu; exact lift hu
              · rw [if_neg hw] at hu
                have hwin : windowStart < e.timestamp ∧ e.timestamp < windowEnd := by
                  rcases not_and_or.mp hw with h | h
                  · exact absurd rfl h
                  · exact not_not.mp h
                rcases List.mem_cons.mp hu with h | h
                · subst h
                  exact ⟨e, List.mem_cons_self e rest, ha, by simpa using hh, rfl,
                    by simpa using hb, by simpa using hl, by simpa using htp,
                    hwin.1, hwin.2⟩
                · exact lift h
    · rw [if_neg ha] at hu; exact lift hu

/-- C9: a user can appear among the users to greet, or in either side of
the treatment/control partition over them, only on account of a "create"
log event whose timestamp lies strictly between 2019-12-02 00:00 and
2020-01-27 00:00 Europe/Berlin (epoch window 1575241200 .. 1580079600);
users outside this window — or blocked, locked, hidden, or with an
existing talk page — are never selected, so they are neither greeted nor
bucketed into the control group. -/
theorem C9_registration_window
    (isBlocked isLocked talkPageExists : String → Bool) (secret : String)
    (events : List NewUserLogEvent) (u : String)
    (hu : u ∈ getUsersToGreet isBlocked isLocked talkPageExists events ∨
      u ∈ (splitUsers secret (getUsersToGreet isBlocked isLocked talkPageExists events)).1 ∨
      u ∈ (splitUsers secret (getUsersToGreet isBlocked isLocked talkPageExists events)).2) :
    ∃ ev ∈ events, ev.action = "create" ∧ ev.hiddenUser = false ∧ ev.user = u ∧
      isBlocked u = false ∧ isLocked u = false ∧ talkPageExists u = false ∧
      windowStart < ev.timestamp ∧ ev.timestamp < windowEnd := by
  have hsel : u ∈ getUsersToGreet isBlocked isLocked talkPageExists events := by
    rcases hu with h | h | h
    · exact h
    · exact (mem_splitUsers secret u _).1 h
    · exact (mem_splitUsers secret u _).2 h
  exact mem_getUsersToGreet isBlocked isLocked talkPageExists u events hsel

/-- A registration event for Bob inside the test window (2020-01-01). -/
def evRegistered : NewUserLogEvent := ⟨"create", "Bob", 1577836800, false⟩

/-- Witness for C9: with no exclusions, the single in-window registration
of Bob selects Bob, and the theorem recovers the window bounds. -/
theorem C9_registration_window_witness :
    ∃ ev ∈ [evRegistered], ev.action = "create" ∧ ev.hiddenUser = false ∧ ev.user = "Bob" ∧
      (fun _ => false : String → Bool) "Bob" = false ∧
      (fun _ => false : String → Bool) "Bob" = false ∧
      (fun _ => false : String → Bool) "Bob" = false ∧
      windowStart < ev.timestamp ∧ ev.timestamp < windowEnd :=
  C9_registration_window (fun _ => false) (fun _ => false) (fun _ => false)
    "12345abcdef" [evRegistered] "Bob" (Or.inl (by decide))

-- Greeter roster: GreetController.reloadGreeters (lines 218-250).

/-- The Greeter dataclass (lines 170-173), with the user represented by
username. -/
structure Greeter where
  user : String
  signatureWithoutTimestamp : String
deriving DecidableEq, Repr

/-- The pywikibot.warning calls issued by reloadGreeters itself: a line
that does not match the signed-line pattern, a signature from which no
user can be extracted, and a duplicate greeter. -/
inductive RosterWarning where
  | parseFail (line : String)
  | extractFail (sig : String)
  | duplicate (user : String)
deriving DecidableEq, Repr

/-- The accumulator of reloadGreeters: `self.greeters`, the local
`greetersSet`, `self.allGreetersSet`, and the warnings issued so far.
Python sets are modelled as duplicate-free lists with insert-if-absent. -/
structure RosterState where
  greeters : List Greeter
  greetersSet : List String
  allGreeters : List String
  warnings : List RosterWarning
deriving DecidableEq, Repr

/-- Python set.add: insert the element only when absent. -/
def addToSet (u : String) (s : List String) : List String :=
  if u ∈ s then s else s ++ [u]

/-- The initial accumulator (lines 219-220, 223). -/
def emptyRosterState : RosterState := ⟨[], [], [], []⟩

/-- Python str.startswith with a single-character prefix. -/
def firstCharIs (c : Char) (s : String) : Bool :=
  match s.data with
  | [] => false
  | d :: _ => d = c

/-- Handling of one "#" line inside the team section (lines 229-246).
`matchSignature` stands for the regex match returning group(1) — the
signature without timestamp — and `userFromSignature` for
getUserFromSignature, both external parsing collaborators; `eligible`
stands for isEligibleAsGreeter (a sequence of wiki API checks).  The
duplicate test consults `greetersSet`, which only ever receives users that
were added as eligible. -/
def processGreeterLine (matchSignature userFromSignature : String → Option String)
    (eligible : String → Bool) (line : String) (rs : RosterState) : RosterState :=
  match matchSignature line with
  | none => { rs with warnings := rs.warnings ++ [.parseFail line] }
  | some sig =>
    match userFromSignature sig with
    | none => { rs with warnings := rs.warnings ++ [.extractFail sig] }
    | some u =>
      let rs1 :=
        if u ∈ rs.greetersSet then
          { rs with warnings := rs.warnings ++ [.duplicate u] }
        else if eligible u then
          { rs with greeters := rs.greeters ++ [⟨u, sig⟩],
                    greetersSet := rs.greetersSet ++ [u] }
        else rs
      { rs1 with allGreeters := addToSet u rs1.allGreeters }

/-- The line loop of reloadGreeters: before the team section header lines
are skipped; inside the section a "=" line ends the scan, "#" lines are
processed, and other lines are ignored. -/
def reloadGreetersLoop (matchSignature userFromSignature : String → Option String)
    (eligible : String → Bool) (isTeamHeader : String → Bool) :
    List String → Bool → RosterState → RosterState
  | [], _, rs => rs
  | line :: rest, inSection, rs =>
    if inSection then
      if firstCharIs '=' line then rs
      else if firstCharIs '#' line then
        reloadGreetersLoop matchSignature userFromSignature eligible isTeamHeader rest true
          (processGreeterLine matchSignature userFromSignature eligible line rs)
      else reloadGreetersLoop matchSignature userFromSignature eligible isTeamHeader rest true rs
    else if isTeamHeader line then
      reloadGreetersLoop matchSignature userFromSignature eligible isTeamHeader rest true rs
    else reloadGreetersLoop matchSignature userFromSignature eligible isTeamHeader rest false rs

/-- GreetController.reloadGreeters on the split page text. -/
def reloadGreeters (matchSignature userFromSignature : String → Option String)
    (eligible : String → Bool) (isTeamHeader : String → Bool)
    (lines : List String) : RosterState :=
  reloadGreetersLoop matchSignature userFromSignature eligible isTeamHeader lines false
    emptyRosterState

/-- processGreeterLine keeps the greetersSet-greeters correspondence and
the absence of duplicates among them. -/
lemma processGreeterLine_invariant (mS uS : String → Option String)
    (eligible : String → Bool) (line : String) (rs : RosterState)
    (h1 : rs.greetersSet = rs.greeters.map Greeter.user) (h2 : rs.greetersSet.Nodup) :
    (processGreeterLine mS uS eligible line rs).greetersSet =
        (processGreeterLine mS uS eligible line rs).greeters.map Greeter.user ∧
      (processGreeterLine mS uS eligible line rs).greetersSet.Nodup := by
  unfold processGreeterLine
  cases hm : mS line with
  | none => exact ⟨h1, h2⟩
  | some sig =>
    dsimp only
    cases hu : uS sig with
    | none => exact ⟨h1, h2⟩
    | some u =>
      dsimp only
      by_cases hmem : u ∈ rs.greetersSet
      · rw [if_pos hmem]
        exact ⟨h1, h2⟩
      · rw [if_neg hmem]
        by_cases hel : eligible u = true
        · rw [if_pos hel]
          refine ⟨?_, ?_⟩
          · simpa [List.map_append] using congrArg (· ++ [u]) h1
          · simpa [List.nodup_append, h2] using hmem
        · rw [if_neg hel]
          exact ⟨h1, h2⟩

/-- The loop preserves the greetersSet-greeters correspondence and the
absence of duplicates. -/
lemma reloadGreetersLoop_invariant (mS uS : String → Option String)
    (eligible : String → Bool) (isTeamHeader : String → Bool) :
    ∀ (lines : List String) (inSection : Bool) (rs : RosterState),
      rs.greetersSet = rs.greeters.map Greeter.user → rs.greetersSet.Nodup →
      (reloadGreetersLoop mS uS eligible isTeamHeader lines inSection rs).greetersSet =
          (reloadGreetersLoop mS uS eligible isTeamHeader lines inSection rs).greeters.map
            Greeter.user ∧
        (reloadGreetersLoop mS uS eligible isTeamHeader lines inSection rs).greetersSet.Nodup := by
  intro lines
  induction lines with
  | nil => intro inSection rs h1 h2; exact ⟨h1, h2⟩
  | cons line rest ih =>
    intro inSection rs h1 h2
    cases inSection with
    | true =>
      by_cases he : firstCharIs '=' line = true
      · simp only [reloadGreetersLoop, he, if_true]
        exact ⟨h1, h2⟩
      · by_cases hp : firstCharIs '#' line = true
        · simp only [reloadGreetersLoop, he, hp, if_true, if_false, Bool.false_eq_true]
          obtain ⟨g1, g2⟩ := processGreeterLine_invariant mS uS eligible line rs h1 h2
          exact ih true _ g1 g2
        · simp only [reloadGreetersLoop, he, hp, if_false, Bool.false_eq_true]
          exact ih true rs h1 h2
    | false =>
      by_cases hh : isTeamHeader line = true
      · simp only [reloadGreetersLoop, hh, if_true, Bool.false_eq_true, if_false]
        exact ih true rs h1 h2
      · simp only [reloadGreetersLoop, hh, if_false, Bool.false_eq_true]
        exact ih false rs h1 h2

/-- A stand-in for the signature-line regex of line 229-232: a "#" line
yields everything after "# " as the signature without timestamp. -/
def mSigSample : String → Option String :=
  fun l => if firstCharIs '#' l then some (String.mk (l.data.drop 2)) else none

/-- A stand-in for getUserFromSignature that reads the signature itself as
the username. -/
def uSigSample : String → Option String := fun s => some s

/-- A stand-in for the team-section header regex of line 249. -/
def hdrSample : String → Bool := fun l => l = "== Begrüßungsteam =="

/-- A roster whose team section carries the same identity on two signed
lines. -/
def rosterLinesDup : List String := ["== Begrüßungsteam ==", "# Dup", "# Dup"]

/-- C8 counterexample: the identity "Dup" appears on two signed lines of
the team section, but with the first occurrence ineligible no duplicate
warning is issued for the later occurrence — the dedup set only records
identities that were added as eligible, so the later occurrence is
re-considered (re-checked for eligibility) rather than rejected.  This
contradicts the claim that later occurrences are rejected with a warning
regardless of whether the first occurrence was itself eligible. -/
theorem C8_duplicate_warning_counterexample :
    mSigSample "# Dup" = some "Dup" ∧
    uSigSample "Dup" = some "Dup" ∧
    RosterWarning.duplicate "Dup" ∉
      (reloadGreeters mSigSample uSigSample (fun _ => false) hdrSample
        rosterLinesDup).warnings ∧
    (reloadGreeters mSigSample uSigSample (fun _ => false) hdrSample
        rosterLinesDup).warnings = [] := by
  refine ⟨rfl, rfl, ?_, rfl⟩
  intro h
  simp [reloadGreeters, reloadGreetersLoop, processGreeterLine, mSigSample, uSigSample,
    hdrSample, rosterLinesDup, emptyRosterState, firstCharIs, addToSet] at h

/-- C8 (amended): an occurrence of an identity already recorded in the
dedup set — which happens exactly when an earlier occurrence was eligible
and added — is rejected with a duplicate warning and adds nothing to the
eligible-greeter list; an ineligible first occurrence does not enter the
dedup set, so later occurrences are re-checked for eligibility instead of
being rejected as duplicates.  In every case the eligible-greeter list
produced by a roster parse never contains two entries for the same
identity. -/
theorem C8_duplicate_handling (mS uS : String → Option String)
    (eligible : String → Bool) (isTeamHeader : String → Bool) :
    (∀ (line sig u : String) (rs : RosterState), mS line = some sig → uS sig = some u →
      u ∈ rs.greetersSet →
      processGreeterLine mS uS eligible line rs =
        { rs with warnings := rs.warnings ++ [.duplicate u],
                  allGreeters := addToSet u rs.allGreeters }) ∧
    (∀ lines : List String,
      ((reloadGreeters mS uS eligible isTeamHeader lines).greeters.map Greeter.user).Nodup) := by
  constructor
  · intro line sig u rs hm hu hmem
    unfold processGreeterLine
    rw [hm]
    dsimp only
    rw [hu]
    dsimp only
    rw [if_pos hmem]
  · intro lines
    obtain ⟨g1, g2⟩ := reloadGreetersLoop_invariant mS uS eligible isTeamHeader lines false
      emptyRosterState rfl List.nodup_nil
    unfold reloadGreeters
    rw [← g1]
    exact g2

/-- A roster accumulator in which "Dup" was already added as an eligible
greeter. -/
def rsDup : RosterState := ⟨[⟨"Dup", "sigA"⟩], ["Dup"], ["Dup"], []⟩

/-- Witness for the amended C8: a second "# Dup" line against `rsDup` is
rejected with exactly a duplicate warning, and a full parse yields a
duplicate-free greeter list. -/
theorem C8_duplicate_handling_witness :
    processGreeterLine mSigSample uSigSample (fun _ => false) "# Dup" rsDup =
      { rsDup with warnings := rsDup.warnings ++ [.duplicate "Dup"],
                   allGreeters := addToSet "Dup" rsDup.allGreeters } ∧
    ((reloadGreeters mSigSample uSigSample (fun _ => true) hdrSample
        rosterLinesDup).greeters.map Greeter.user).Nodup :=
  ⟨(C8_duplicate_handling mSigSample uSigSample (fun _ => false) hdrSample).1
      "# Dup" "Dup" "Dup" rsDup rfl rfl (by decide),
    (C8_duplicate_handling mSigSample uSigSample (fun _ => true) hdrSample).2 rosterLinesDup⟩
